import Mathlib

/-
Shallow embedding of the SimpleMicroservice repository
(src/main.py, src/models/assignment.py, src/models/course.py).

Modelling conventions:
- UUIDs are modelled as Nat. The uuid4 default factory on the id field of
  the creation payloads is modelled by an explicit oracle argument `gen`
  supplied to the handler: when the caller did not include an id in the
  payload (id = none), the generated value `gen` is used.
- datetime values are modelled by PyDateTime, a pair of a calendar day
  (Int, a day ordinal, the value of the Python .date() projection) and a
  time-of-day (Nat). datetime.utcnow() at the instant a handler runs is
  modelled by an explicit argument `now`; all default_factory timestamp
  calls in one handler invocation receive the same `now`.
- Decimal and float are both modelled as Rat (the spec's wide numeric
  type); the float(...) coercion in the filters is the identity here.
- The stores (the module-level dicts `assignments` and `courses` in
  src/main.py) are association lists from key to record; handlers take
  the store as an argument and return the new store, since Lean has no
  ambient mutable state.
- A field of a pydantic Update model is modelled as Option (Option v):
  none        = field absent from the payload (excluded by exclude_unset),
  some none   = field explicitly present with value null,
  some (some v) = field explicitly present with value v.
- Exceptions raised by a handler (HTTPException 404, pydantic
  ValidationError, and the TypeError raised by an invalid default
  factory) are modelled with Except ApiError; a handler that raises
  leaves the store unchanged when the raise happens before the store
  assignment, which is the case everywhere in src/main.py.
-/

/-- Error outcomes a handler can produce. notFound carries the detail
string of the HTTPException; validationError models a pydantic
ValidationError raised while constructing a Read model; typeError models
the TypeError raised when a default_factory is called with no arguments
but requires some (the datetime factory in CourseRead). -/
inductive ApiError where
  | notFound (detail : String) : ApiError
  | validationError : ApiError
  | typeError : ApiError
deriving DecidableEq, Repr

/-- Model of a Python datetime: the calendar day (the .date() projection,
as a day ordinal) and the time within that day. -/
structure PyDateTime where
  day : Int
  tod : Nat
deriving DecidableEq, Repr

/-- Strict order on datetimes: lexicographic on (day, time-of-day). -/
def PyDateTime.ltB (a b : PyDateTime) : Bool :=
  a.day < b.day || (a.day == b.day && a.tod < b.tod)

/-- A store is the in-memory dict from id to record (src/main.py lines
19-20), modelled as an association list. -/
abbrev Store (α : Type) : Type := List (Nat × α)

/-- Dict lookup: d[k] / k in d. -/
def storeGet {α : Type} : Store α → Nat → Option α
  | [], _ => none
  | (k2, v) :: t, k => if k2 == k then some v else storeGet t k

/-- Dict assignment d[k] = v: replaces the value at an existing key,
otherwise appends a new entry. -/
def storeSet {α : Type} : Store α → Nat → α → Store α
  | [], k, v => [(k, v)]
  | (k2, v2) :: t, k, v =>
    if k2 == k then (k2, v) :: t else (k2, v2) :: storeSet t k v

/-- Dict deletion del d[k]: removes the entry with key k. -/
def storeErase {α : Type} : Store α → Nat → Store α
  | [], _ => []
  | (k2, v2) :: t, k => if k2 == k then t else (k2, v2) :: storeErase t k

/-- Enumeration d.values(). -/
def storeValues {α : Type} (s : Store α) : List α := s.map Prod.snd

/-- Well-formedness of a Python dict image: keys occur at most once. -/
def storeKeysNodup {α : Type} (s : Store α) : Prop :=
  (s.map Prod.fst).Nodup

instance {α : Type} (s : Store α) : Decidable (storeKeysNodup s) := by
  unfold storeKeysNodup; exact inferInstance

/-- The AssignmentRead model (src/models/assignment.py lines 115-127):
all AssignmentBase fields plus the two server timestamps. -/
structure AssignmentRead where
  id : Nat
  course_id : Nat
  title : String
  description : String
  points : Rat
  due_date : PyDateTime
  late_submission_allowed : Bool
  group_assignment : Bool
  created_at : PyDateTime
  updated_at : PyDateTime
deriving DecidableEq, Repr

/-- The AssignmentCreate payload (src/models/assignment.py lines 66-83):
the AssignmentBase fields. id is Option Nat: none means the caller did
not supply an id and the uuid4 default factory fires (modelled by the
handler's gen argument). The late_submission_allowed / group_assignment
defaults (True / False) are applied at the parsing boundary, so here the
fields are plain Bool. -/
structure AssignmentCreate where
  id : Option Nat
  course_id : Nat
  title : String
  description : String
  points : Rat
  due_date : PyDateTime
  late_submission_allowed : Bool
  group_assignment : Bool
deriving DecidableEq, Repr

/-- The AssignmentUpdate payload (src/models/assignment.py lines 86-112);
each field uses the Option (Option v) presence encoding described above. -/
structure AssignmentUpdate where
  title : Option (Option String) := none
  description : Option (Option String) := none
  points : Option (Option Rat) := none
  due_date : Option (Option PyDateTime) := none
  late_submission_allowed : Option (Option Bool) := none
  group_assignment : Option (Option Bool) := none
deriving DecidableEq, Repr

/-- Dict-merge semantics of stored.update(payload.model_dump(exclude_unset
= True)) for one field: an absent field keeps the stored value, a present
field (null or not) takes the payload's value. Used for fields whose
target type in the Read model is required, so the merged value is null
exactly when the payload explicitly carried null. -/
def appField {α : Type} (cur : α) : Option (Option α) → Option α
  | none => some cur
  | some o => o

/-- Validation performed by AssignmentRead(**stored): every field of
AssignmentRead touched by AssignmentUpdate is required (non Optional), so
construction succeeds iff no explicitly present field is null. -/
def assignmentUpdValid (u : AssignmentUpdate) : Bool :=
  u.title != some none && u.description != some none &&
  u.points != some none && u.due_date != some none &&
  u.late_submission_allowed != some none && u.group_assignment != some none

/-- Merge of the stored dict with the exclude_unset dump of the update,
then revalidation by the AssignmentRead constructor (src/main.py lines
153-155). The stored dict already contains id, created_at and updated_at,
and AssignmentUpdate has no such fields, so they pass through unchanged;
in particular updated_at keeps its stored value (no default factory fires
because the key is present in the dict). -/
def mergeAssignment (old : AssignmentRead) (u : AssignmentUpdate) :
    Except ApiError AssignmentRead :=
  match appField old.title u.title, appField old.description u.description,
        appField old.points u.points, appField old.due_date u.due_date,
        appField old.late_submission_allowed u.late_submission_allowed,
        appField old.group_assignment u.group_assignment with
  | some t, some d, some p, some dd, some ls, some g =>
    Except.ok { old with title := t, description := d, points := p,
                         due_date := dd, late_submission_allowed := ls,
                         group_assignment := g }
  | _, _, _, _, _, _ => Except.error ApiError.validationError

/-- Handler create_assignment (src/main.py lines 63-66):
AssignmentRead(**assignment.model_dump()) — the dump carries the payload
id (caller-supplied or uuid4-generated, here payload.id.getD gen) and no
timestamps, so the created_at / updated_at default factories fire with
the current time. Never fails. -/
def create_assignment (s : Store AssignmentRead) (payload : AssignmentCreate)
    (gen : Nat) (now : PyDateTime) : AssignmentRead × Store AssignmentRead :=
  let i := payload.id.getD gen
  let r : AssignmentRead :=
    { id := i, course_id := payload.course_id, title := payload.title,
      description := payload.description, points := payload.points,
      due_date := payload.due_date,
      late_submission_allowed := payload.late_submission_allowed,
      group_assignment := payload.group_assignment,
      created_at := now, updated_at := now }
  (r, storeSet s i r)

/-- Handler get_assignment (src/main.py lines 137-140). -/
def get_assignment (s : Store AssignmentRead) (aid : Nat) :
    Except ApiError AssignmentRead :=
  match storeGet s aid with
  | none => Except.error (ApiError.notFound "Assignment not found")
  | some r => Except.ok r

/-- Handler update_assignment (src/main.py lines 150-156). On any raise
(404 or ValidationError from the AssignmentRead constructor) the store is
unchanged, because the store assignment on line 155 is the last statement
and its right-hand side is evaluated first. -/
def update_assignment (s : Store AssignmentRead) (aid : Nat)
    (u : AssignmentUpdate) :
    Except ApiError AssignmentRead × Store AssignmentRead :=
  match storeGet s aid with
  | none => (Except.error (ApiError.notFound "Assignment not found"), s)
  | some old =>
    match mergeAssignment old u with
    | Except.error e => (Except.error e, s)
    | Except.ok r => (Except.ok r, storeSet s aid r)

/-- Record built by replace_assignment: AssignmentRead(**assignment_data)
where assignment_data is the payload dump with id overwritten by the path
id; no timestamps are in the dump, so both timestamp default factories
fire with the current time. -/
def replacedAssignment (aid : Nat) (payload : AssignmentCreate)
    (now : PyDateTime) : AssignmentRead :=
  { id := aid, course_id := payload.course_id, title := payload.title,
    description := payload.description, points := payload.points,
    due_date := payload.due_date,
    late_submission_allowed := payload.late_submission_allowed,
    group_assignment := payload.group_assignment,
    created_at := now, updated_at := now }

/-- Handler replace_assignment (src/main.py lines 166-174): the dump of
the AssignmentCreate payload has its id overwritten with the path id
(line 171), and carries no timestamps, so AssignmentRead's created_at and
updated_at default factories both fire with the current time. -/
def replace_assignment (s : Store AssignmentRead) (aid : Nat)
    (payload : AssignmentCreate) (now : PyDateTime) :
    Except ApiError AssignmentRead × Store AssignmentRead :=
  match storeGet s aid with
  | none => (Except.error (ApiError.notFound "Assignment not found"), s)
  | some _ =>
    (Except.ok (replacedAssignment aid payload now),
     storeSet s aid (replacedAssignment aid payload now))

/-- Handler delete_assignment (src/main.py lines 184-188). -/
def delete_assignment (s : Store AssignmentRead) (aid : Nat) :
    Except ApiError Unit × Store AssignmentRead :=
  match storeGet s aid with
  | none => (Except.error (ApiError.notFound "Assignment not found"), s)
  | some _ => (Except.ok (), storeErase s aid)

/-- The CourseRead model (src/models/course.py lines 112-124). description
is Optional in CourseBase, hence Option String here. -/
structure CourseRead where
  id : Nat
  title : String
  description : Option String
  credits : Int
  department : String
  level : Int
  semester : String
  year : Int
  created_at : PyDateTime
  updated_at : PyDateTime
deriving DecidableEq, Repr

/-- Construction CourseRead(**data). In src/models/course.py lines 115-124
the created_at and updated_at fields use default_factory=datetime (the
class itself, not datetime.utcnow): when either key is absent from data,
pydantic calls datetime() with no arguments, which raises TypeError
(datetime requires year, month and day). So construction succeeds only
when both timestamps are supplied. -/
def mkCourseRead (id : Nat) (title : String) (description : Option String)
    (credits : Int) (department : String) (level : Int) (semester : String)
    (year : Int) (created_at updated_at : Option PyDateTime) :
    Except ApiError CourseRead :=
  match created_at, updated_at with
  | some c, some u =>
    Except.ok { id := id, title := title, description := description,
                credits := credits, department := department, level := level,
                semester := semester, year := year,
                created_at := c, updated_at := u }
  | _, _ => Except.error ApiError.typeError

/-- The CourseCreate payload (src/models/course.py lines 64-81); id as in
AssignmentCreate. -/
structure CourseCreate where
  id : Option Nat
  title : String
  description : Option String
  credits : Int
  department : String
  level : Int
  semester : String
  year : Int
deriving DecidableEq, Repr

/-- The CourseUpdate payload (src/models/course.py lines 84-109), with the
Option (Option v) presence encoding. -/
structure CourseUpdate where
  title : Option (Option String) := none
  description : Option (Option String) := none
  credits : Option (Option Int) := none
  department : Option (Option String) := none
  level : Option (Option Int) := none
  semester : Option (Option String) := none
  year : Option (Option Int) := none
deriving DecidableEq, Repr

/-- Dict-merge for a field whose target in CourseRead is Optional
(description): a present null is a legitimate value and clears the field. -/
def appOptField {α : Type} (cur : Option α) : Option (Option α) → Option α
  | none => cur
  | some o => o

/-- Merge of the stored course dict with the exclude_unset dump of the
update, then revalidation by CourseRead (src/main.py lines 266-268). The
stored dict carries created_at and updated_at, so the datetime default
factory does not fire and updated_at keeps its stored value. All target
fields except description are required, so an explicit null on them makes
the constructor raise a ValidationError. -/
def mergeCourse (old : CourseRead) (u : CourseUpdate) :
    Except ApiError CourseRead :=
  match appField old.title u.title, appField old.credits u.credits,
        appField old.department u.department, appField old.level u.level,
        appField old.semester u.semester, appField old.year u.year with
  | some t, some cr, some dep, some lv, some sem, some y =>
    Except.ok { old with title := t,
                         description := appOptField old.description u.description,
                         credits := cr, department := dep, level := lv,
                         semester := sem, year := y }
  | _, _, _, _, _, _ => Except.error ApiError.validationError

/-- Handler create_course (src/main.py lines 199-202):
CourseRead(**course.model_dump()) — the dump carries no timestamps, so
both default factories fire; the factory is datetime itself and raises
TypeError (see mkCourseRead), before the store assignment on line 201. -/
def create_course (s : Store CourseRead) (payload : CourseCreate)
    (gen : Nat) : Except ApiError CourseRead × Store CourseRead :=
  let i := payload.id.getD gen
  match mkCourseRead i payload.title payload.description payload.credits
        payload.department payload.level payload.semester payload.year
        none none with
  | Except.error e => (Except.error e, s)
  | Except.ok r => (Except.ok r, storeSet s r.id r)

/-- Handler get_course (src/main.py lines 250-253). -/
def get_course (s : Store CourseRead) (cid : Nat) :
    Except ApiError CourseRead :=
  match storeGet s cid with
  | none => Except.error (ApiError.notFound "Course not found")
  | some r => Except.ok r

/-- Handler update_course (src/main.py lines 263-269). -/
def update_course (s : Store CourseRead) (cid : Nat) (u : CourseUpdate) :
    Except ApiError CourseRead × Store CourseRead :=
  match storeGet s cid with
  | none => (Except.error (ApiError.notFound "Course not found"), s)
  | some old =>
    match mergeCourse old u with
    | Except.error e => (Except.error e, s)
    | Except.ok r => (Except.ok r, storeSet s cid r)

/-- Handler replace_course (src/main.py lines 279-287): the dump of the
CourseCreate payload has its id overwritten with the path id (line 284)
and carries no timestamps, so CourseRead's datetime default factory fires
and raises TypeError; the store assignment on line 286 is never reached. -/
def replace_course (s : Store CourseRead) (cid : Nat)
    (payload : CourseCreate) : Except ApiError CourseRead × Store CourseRead :=
  match storeGet s cid with
  | none => (Except.error (ApiError.notFound "Course not found"), s)
  | some _ =>
    match mkCourseRead cid payload.title payload.description payload.credits
          payload.department payload.level payload.semester payload.year
          none none with
    | Except.error e => (Except.error e, s)
    | Except.ok r => (Except.ok r, storeSet s cid r)

/-- Handler delete_course (src/main.py lines 297-301). -/
def delete_course (s : Store CourseRead) (cid : Nat) :
    Except ApiError Unit × Store CourseRead :=
  match storeGet s cid with
  | none => (Except.error (ApiError.notFound "Course not found"), s)
  | some _ => (Except.ok (), storeErase s cid)

/-- Check that the character list hay begins with the character list
needle (case already folded by the caller). -/
def charsStart : List Char → List Char → Bool
  | _, [] => true
  | [], _ :: _ => false
  | c :: h, c2 :: n => c == c2 && charsStart h n

/-- Python substring test needle in hay on character lists. -/
def charsContain : List Char → List Char → Bool
  | [], needle => charsStart [] needle
  | c :: t, needle => charsStart (c :: t) needle || charsContain t needle

/-- Python needle.lower() in hay.lower(), the case-insensitive substring
match used by the title and department filters. -/
def lowerIn (needle hay : String) : Bool :=
  charsContain (hay.data.map Char.toLower) (needle.data.map Char.toLower)

/-- Query parameters of list_assignments (src/main.py lines 76-95). The
due_date_from / due_date_to strings are parsed at the filtering site by
datetime.fromisoformat(...).date(); here the criterion carries that
parsed calendar date (day ordinal) directly. -/
structure AssignmentFilter where
  id : Option Nat := none
  course_id : Option Nat := none
  title : Option String := none
  due_date_from : Option Int := none
  due_date_to : Option Int := none
  min_points : Option Rat := none
  max_points : Option Rat := none
  group_assignment : Option Bool := none
  late_submission_allowed : Option Bool := none
deriving DecidableEq, Repr

/-- Query parameters of list_courses (src/main.py lines 212-221). -/
structure CourseFilter where
  title : Option String := none
  department : Option String := none
  level : Option Int := none
  semester : Option String := none
  year : Option Int := none
  min_credits : Option Int := none
  max_credits : Option Int := none
deriving DecidableEq, Repr

/-- One `if crit is not None: results = [x for x in results if p]` block of
the list handlers: an absent criterion leaves the list unchanged, a
present one filters by its predicate. -/
def applyFilter {β α : Type} (o : Option β) (p : β → α → Bool)
    (l : List α) : List α :=
  match o with
  | none => l
  | some v => l.filter (p v)

/-- Filtering section of list_assignments (src/main.py lines 97-127), one
applyFilter stage per criterion in source order. -/
def filterAssignments (f : AssignmentFilter) (l : List AssignmentRead) :
    List AssignmentRead :=
  let r := applyFilter f.id (fun v a => a.id == v) l
  let r := applyFilter f.course_id (fun v a => a.course_id == v) r
  let r := applyFilter f.title (fun v a => lowerIn v a.title) r
  let r := applyFilter f.due_date_from (fun v a => decide (a.due_date.day ≥ v)) r
  let r := applyFilter f.due_date_to (fun v a => decide (a.due_date.day ≤ v)) r
  let r := applyFilter f.min_points (fun v a => decide (a.points ≥ v)) r
  let r := applyFilter f.max_points (fun v a => decide (a.points ≤ v)) r
  let r := applyFilter f.group_assignment (fun v a => a.group_assignment == v) r
  let r := applyFilter f.late_submission_allowed
    (fun v a => a.late_submission_allowed == v) r
  r

/-- Handler list_assignments: enumerate the store's values, then filter. -/
def list_assignments (f : AssignmentFilter) (s : Store AssignmentRead) :
    List AssignmentRead :=
  filterAssignments f (storeValues s)

/-- Filtering section of list_courses (src/main.py lines 223-240), one
applyFilter stage per criterion in source order. -/
def filterCourses (f : CourseFilter) (l : List CourseRead) :
    List CourseRead :=
  let r := applyFilter f.title (fun v c => lowerIn v c.title) l
  let r := applyFilter f.department (fun v c => lowerIn v c.department) r
  let r := applyFilter f.level (fun v c => c.level == v) r
  let r := applyFilter f.semester (fun v c => c.semester == v) r
  let r := applyFilter f.year (fun v c => c.year == v) r
  let r := applyFilter f.min_credits (fun v c => decide (c.credits ≥ v)) r
  let r := applyFilter f.max_credits (fun v c => decide (c.credits ≤ v)) r
  r

/-- Handler list_courses: enumerate the store's values, then filter. -/
def list_courses (f : CourseFilter) (s : Store CourseRead) :
    List CourseRead :=
  filterCourses f (storeValues s)

/-- Evaluated form of one criterion: an absent criterion imposes no
constraint (true), a present one applies its predicate. -/
def optMatch {β α : Type} (o : Option β) (p : β → α → Bool) (a : α) : Bool :=
  match o with
  | none => true
  | some v => p v a

/-- Pointwise conjunction of two predicates. -/
def andPred {α : Type} (p q : α → Bool) : α → Bool :=
  fun a => p a && q a

/-- The nine assignment criteria as evaluated predicates, in source
order. -/
def assignmentPreds (f : AssignmentFilter) : List (AssignmentRead → Bool) :=
  [optMatch f.id (fun v a => a.id == v),
   optMatch f.course_id (fun v a => a.course_id == v),
   optMatch f.title (fun v a => lowerIn v a.title),
   optMatch f.due_date_from (fun v a => decide (a.due_date.day ≥ v)),
   optMatch f.due_date_to (fun v a => decide (a.due_date.day ≤ v)),
   optMatch f.min_points (fun v a => decide (a.points ≥ v)),
   optMatch f.max_points (fun v a => decide (a.points ≤ v)),
   optMatch f.group_assignment (fun v a => a.group_assignment == v),
   optMatch f.late_submission_allowed
     (fun v a => a.late_submission_allowed == v)]

/-- An assignment satisfies all supplied criteria of f. -/
def matchesAssignment (f : AssignmentFilter) (a : AssignmentRead) : Bool :=
  (assignmentPreds f).all (fun p => p a)

/-- The seven course criteria as evaluated predicates, in source order. -/
def coursePreds (f : CourseFilter) : List (CourseRead → Bool) :=
  [optMatch f.title (fun v c => lowerIn v c.title),
   optMatch f.department (fun v c => lowerIn v c.department),
   optMatch f.level (fun v c => c.level == v),
   optMatch f.semester (fun v c => c.semester == v),
   optMatch f.year (fun v c => c.year == v),
   optMatch f.min_credits (fun v c => decide (c.credits ≥ v)),
   optMatch f.max_credits (fun v c => decide (c.credits ≤ v))]

/-- A course satisfies all supplied criteria of f. -/
def matchesCourse (f : CourseFilter) (c : CourseRead) : Bool :=
  (coursePreds f).all (fun p => p c)

/-- Criteria configuration with no criterion supplied. -/
def emptyAssignmentFilter : AssignmentFilter := {}

/-- Criteria configuration with no criterion supplied. -/
def emptyCourseFilter : CourseFilter := {}

/-- Combination of two optional criteria that are not both supplied. -/
def combOpt {β : Type} : Option β → Option β → Option β
  | some v, _ => some v
  | none, o => o

/-- Union of two assignment criteria configurations, fieldwise. -/
def combineAF (f1 f2 : AssignmentFilter) : AssignmentFilter :=
  { id := combOpt f1.id f2.id,
    course_id := combOpt f1.course_id f2.course_id,
    title := combOpt f1.title f2.title,
    due_date_from := combOpt f1.due_date_from f2.due_date_from,
    due_date_to := combOpt f1.due_date_to f2.due_date_to,
    min_points := combOpt f1.min_points f2.min_points,
    max_points := combOpt f1.max_points f2.max_points,
    group_assignment := combOpt f1.group_assignment f2.group_assignment,
    late_submission_allowed :=
      combOpt f1.late_submission_allowed f2.late_submission_allowed }

/-- Two assignment criteria configurations are independent when no
criterion is supplied in both. -/
def disjointAF (f1 f2 : AssignmentFilter) : Prop :=
  (f1.id = none ∨ f2.id = none) ∧
  (f1.course_id = none ∨ f2.course_id = none) ∧
  (f1.title = none ∨ f2.title = none) ∧
  (f1.due_date_from = none ∨ f2.due_date_from = none) ∧
  (f1.due_date_to = none ∨ f2.due_date_to = none) ∧
  (f1.min_points = none ∨ f2.min_points = none) ∧
  (f1.max_points = none ∨ f2.max_points = none) ∧
  (f1.group_assignment = none ∨ f2.group_assignment = none) ∧
  (f1.late_submission_allowed = none ∨ f2.late_submission_allowed = none)

instance (f1 f2 : AssignmentFilter) : Decidable (disjointAF f1 f2) := by
  unfold disjointAF; exact inferInstance

/-- Union of two course criteria configurations, fieldwise. -/
def combineCF (f1 f2 : CourseFilter) : CourseFilter :=
  { title := combOpt f1.title f2.title,
    department := combOpt f1.department f2.department,
    level := combOpt f1.level f2.level,
    semester := combOpt f1.semester f2.semester,
    year := combOpt f1.year f2.year,
    min_credits := combOpt f1.min_credits f2.min_credits,
    max_credits := combOpt f1.max_credits f2.max_credits }

/-- Two course criteria configurations are independent when no criterion
is supplied in both. -/
def disjointCF (f1 f2 : CourseFilter) : Prop :=
  (f1.title = none ∨ f2.title = none) ∧
  (f1.department = none ∨ f2.department = none) ∧
  (f1.level = none ∨ f2.level = none) ∧
  (f1.semester = none ∨ f2.semester = none) ∧
  (f1.year = none ∨ f2.year = none) ∧
  (f1.min_credits = none ∨ f2.min_credits = none) ∧
  (f1.max_credits = none ∨ f2.max_credits = none)

instance (f1 f2 : CourseFilter) : Decidable (disjointCF f1 f2) := by
  unfold disjointCF; exact inferInstance

/-- Test whether a handler outcome is the 404 NotFound signal. -/
def isNotFoundB {α : Type} : Except ApiError α → Bool
  | Except.error (ApiError.notFound _) => true
  | _ => false

/-- Single-field partial payload: only title supplied. -/
def updTitle (v : String) : AssignmentUpdate := { title := some (some v) }

/-- Single-field partial payload: only description supplied. -/
def updDescription (v : String) : AssignmentUpdate :=
  { description := some (some v) }

/-- Single-field partial payload: only points supplied. -/
def updPoints (v : Rat) : AssignmentUpdate := { points := some (some v) }

/-- Single-field partial payload: only due_date supplied. -/
def updDueDate (v : PyDateTime) : AssignmentUpdate :=
  { due_date := some (some v) }

/-- Single-field partial payload: only late_submission_allowed supplied. -/
def updLate (v : Bool) : AssignmentUpdate :=
  { late_submission_allowed := some (some v) }

/-- Single-field partial payload: only group_assignment supplied. -/
def updGroup (v : Bool) : AssignmentUpdate :=
  { group_assignment := some (some v) }

/-- Partial payload that explicitly sets title to null. -/
def nullTitleUpd : AssignmentUpdate := { title := some none }

/-- Partial payload that explicitly sets description to null. -/
def nullDescriptionUpd : AssignmentUpdate := { description := some none }

/-- Partial payload that explicitly sets points to null. -/
def nullPointsUpd : AssignmentUpdate := { points := some none }

/-- Partial payload that explicitly sets due_date to null. -/
def nullDueDateUpd : AssignmentUpdate := { due_date := some none }

/-- Concrete assignment record used by counterexamples and witnesses:
the Calculus Quiz example of src/models/assignment.py with day-ordinal
dates (due 2024-03-20 at 15:30, created and last updated on an earlier
day). -/
def exAssignment : AssignmentRead :=
  { id := 1, course_id := 7, title := "Quiz",
    description := "Quiz covering integration by parts.", points := 50,
    due_date := { day := 19802, tod := 55800 },
    late_submission_allowed := false, group_assignment := false,
    created_at := { day := 19700, tod := 100 },
    updated_at := { day := 19700, tod := 100 } }

/-- Concrete creation payload without a caller-supplied id. -/
def exACreate : AssignmentCreate :=
  { id := none, course_id := 7, title := "Quiz 2",
    description := "Replacement quiz.", points := 60,
    due_date := { day := 19810, tod := 0 },
    late_submission_allowed := true, group_assignment := false }

/-- Concrete course record used by counterexamples and witnesses. -/
def exCourse : CourseRead :=
  { id := 2, title := "Calculus II",
    description := some "Continuation of calculus concepts.",
    credits := 4, department := "Mathematics", level := 2000,
    semester := "spring", year := 2024,
    created_at := { day := 19650, tod := 0 },
    updated_at := { day := 19650, tod := 0 } }

/-- Concrete course creation payload (the CourseCreate example of
src/models/course.py). -/
def exCCreate : CourseCreate :=
  { id := none, title := "Calculus II",
    description := some "Continuation of calculus concepts.",
    credits := 4, department := "Mathematics", level := 2000,
    semester := "spring", year := 2024 }

/-- Folding a list of predicates over a list as successive filters,
the shape shared by both list handlers. -/
def applyAll {α : Type} (ps : List (α → Bool)) (l : List α) : List α :=
  ps.foldl (fun acc p => acc.filter p) l

/-- Concrete stored assignment under id 5 (a record previously created
with a caller-supplied id). -/
def exA5 : AssignmentRead := { exAssignment with id := 5 }

/-- Concrete creation payload that carries the caller-supplied id 5. -/
def exACreate5 : AssignmentCreate := { exACreate with id := some 5 }

/-- Single-field course partial payload: only title supplied. -/
def cupdTitle (v : String) : CourseUpdate := { title := some (some v) }

/-- Single-field course partial payload: only description supplied
(with a non-null value). -/
def cupdDescription (v : String) : CourseUpdate :=
  { description := some (some v) }

/-- Single-field course partial payload: only credits supplied. -/
def cupdCredits (v : Int) : CourseUpdate := { credits := some (some v) }

/-- Single-field course partial payload: only department supplied. -/
def cupdDepartment (v : String) : CourseUpdate :=
  { department := some (some v) }

/-- Single-field course partial payload: only level supplied. -/
def cupdLevel (v : Int) : CourseUpdate := { level := some (some v) }

/-- Single-field course partial payload: only semester supplied. -/
def cupdSemester (v : String) : CourseUpdate := { semester := some (some v) }

/-- Single-field course partial payload: only year supplied. -/
def cupdYear (v : Int) : CourseUpdate := { year := some (some v) }

/-- Lookup after assignment at the same key yields the assigned value. -/
theorem storeGet_storeSet_self {α : Type} (s : Store α) (k : Nat) (v : α) :
    storeGet (storeSet s k v) k = some v := by
  induction s with
  | nil => simp [storeSet, storeGet]
  | cons kv t ih =>
    obtain ⟨k2, v2⟩ := kv
    by_cases h : k2 = k <;> simp [storeSet, storeGet, h, ih]

/-- A key outside the key list is not found. -/
theorem storeGet_eq_none_of_not_mem {α : Type} (s : Store α) (k : Nat)
    (h : k ∉ s.map Prod.fst) : storeGet s k = none := by
  induction s with
  | nil => rfl
  | cons kv t ih =>
    obtain ⟨k2, v2⟩ := kv
    simp only [List.map_cons, List.mem_cons] at h
    push_neg at h
    have hne : ¬ k2 = k := fun hh => h.1 hh.symm
    simp [storeGet, hne, ih h.2]

/-- In a store with pairwise distinct keys, lookup after deletion at the
same key fails. -/
theorem storeGet_storeErase_self {α : Type} (s : Store α) (k : Nat)
    (hnd : storeKeysNodup s) : storeGet (storeErase s k) k = none := by
  induction s with
  | nil => rfl
  | cons kv t ih =>
    obtain ⟨k2, v2⟩ := kv
    unfold storeKeysNodup at hnd
    simp only [List.map_cons, List.nodup_cons] at hnd
    by_cases h : k2 = k
    · subst h
      simpa [storeErase] using storeGet_eq_none_of_not_mem t k2 hnd.1
    · simp [storeErase, h, storeGet, ih hnd.2]

/-- In a store with pairwise distinct keys, every entry surviving a
deletion has a key different from the deleted one and was already
present. -/
theorem mem_storeErase {α : Type} (s : Store α) (k : Nat)
    (kv : Nat × α) (hnd : storeKeysNodup s) (h : kv ∈ storeErase s k) :
    kv ∈ s ∧ kv.1 ≠ k := by
  induction s with
  | nil => simp [storeErase] at h
  | cons hd t ih =>
    obtain ⟨k2, v2⟩ := hd
    unfold storeKeysNodup at hnd
    simp only [List.map_cons, List.nodup_cons] at hnd
    by_cases hk : k2 = k
    · subst hk
      simp only [storeErase, beq_self_eq_true, if_pos rfl] at h
      refine ⟨List.mem_cons_of_mem _ h, ?_⟩
      intro hkk
      exact hnd.1 (hkk ▸ List.mem_map_of_mem Prod.fst h)
    · simp only [storeErase, beq_iff_eq, if_neg hk] at h
      rcases List.mem_cons.mp h with h1 | h1
      · subst h1
        exact ⟨List.mem_cons_self _ _, hk⟩
      · obtain ⟨h2, h3⟩ := ih hnd.2 h1
        exact ⟨List.mem_cons_of_mem _ h2, h3⟩

/-- Two successive filters equal one filter by the conjunction, in
application order. -/
theorem filterChain {α : Type} (p q : α → Bool) (l : List α) :
    (l.filter p).filter q = l.filter (fun a => p a && q a) := by
  induction l with
  | nil => rfl
  | cons a t ih =>
    by_cases h : p a <;> by_cases h2 : q a <;>
      simp [List.filter_cons, h, h2, ih]

/-- A criterion stage is the filter by the evaluated criterion. -/
theorem applyFilter_eq_filter {β α : Type} (o : Option β)
    (p : β → α → Bool) (l : List α) :
    applyFilter o p l = l.filter (fun a => optMatch o p a) := by
  cases o <;> simp [applyFilter, optMatch]

/-- Folded filtering by a predicate list is one filter by the
conjunction of all predicates. -/
theorem applyAll_eq_filter {α : Type} (ps : List (α → Bool)) (l : List α) :
    applyAll ps l = l.filter (fun a => ps.all (fun p => p a)) := by
  induction ps generalizing l with
  | nil => simp [applyAll]
  | cons p ps ih =>
    calc applyAll (p :: ps) l = applyAll ps (l.filter p) := by
          simp [applyAll]
    _ = (l.filter p).filter (fun a => ps.all (fun q => q a)) := ih _
    _ = l.filter (fun a => p a && ps.all (fun q => q a)) := filterChain _ _ _
    _ = l.filter (fun a => (p :: ps).all (fun q => q a)) := by
          simp [List.all_cons]

/-- The assignment list handler's filter chain is the fold of its stage
predicates in source order. -/
theorem filterAssignments_eq_applyAll (f : AssignmentFilter)
    (l : List AssignmentRead) :
    filterAssignments f l = applyAll (assignmentPreds f) l := by
  simp [filterAssignments, applyAll, assignmentPreds, applyFilter_eq_filter]

/-- Normal form of the assignment list handler: one filter retaining
exactly the assignments satisfying every supplied criterion. -/
theorem filterAssignments_eq_filter (f : AssignmentFilter)
    (l : List AssignmentRead) :
    filterAssignments f l = l.filter (matchesAssignment f) := by
  rw [filterAssignments_eq_applyAll, applyAll_eq_filter]
  rfl

/-- The course list handler's filter chain is the fold of its stage
predicates in source order. -/
theorem filterCourses_eq_applyAll (f : CourseFilter) (l : List CourseRead) :
    filterCourses f l = applyAll (coursePreds f) l := by
  simp [filterCourses, applyAll, coursePreds, applyFilter_eq_filter]

/-- Normal form of the course list handler. -/
theorem filterCourses_eq_filter (f : CourseFilter) (l : List CourseRead) :
    filterCourses f l = l.filter (matchesCourse f) := by
  rw [filterCourses_eq_applyAll, applyAll_eq_filter]
  rfl

/-- Evaluated combination of two criteria that are not both supplied is
the conjunction of the evaluated criteria. -/
theorem optMatch_combOpt {β α : Type} (o1 o2 : Option β) (p : β → α → Bool)
    (h : o1 = none ∨ o2 = none) :
    optMatch (combOpt o1 o2) p = andPred (optMatch o1 p) (optMatch o2 p) := by
  funext a
  rcases h with h | h
  · subst h
    simp [combOpt, optMatch, andPred]
  · subst h
    cases o1 <;> simp [combOpt, optMatch, andPred]

/-- Conjunction of all elementwise-conjoined predicates splits into the
two conjunctions of all predicates. -/
theorem all_zipWith_andPred {α : Type} :
    ∀ (ps qs : List (α → Bool)), ps.length = qs.length → ∀ a : α,
    (List.zipWith andPred ps qs).all (fun p => p a) =
      (ps.all (fun p => p a) && qs.all (fun p => p a))
  | [], [], _, a => by simp
  | [], _ :: _, h, a => by simp at h
  | _ :: _, [], h, a => by simp at h
  | p :: ps, q :: qs, h, a => by
    simp only [List.length_cons, Nat.succ.injEq] at h
    simp only [List.zipWith_cons_cons, List.all_cons,
      all_zipWith_andPred ps qs h a, andPred]
    cases hp : p a <;> cases hq : q a <;> simp

/-- Under independence, the stage predicates of the combined assignment
criteria are the elementwise conjunctions of the two stage predicate
lists. -/
theorem assignmentPreds_combine (f1 f2 : AssignmentFilter)
    (h : disjointAF f1 f2) :
    assignmentPreds (combineAF f1 f2) =
      List.zipWith andPred (assignmentPreds f1) (assignmentPreds f2) := by
  obtain ⟨h1, h2, h3, h4, h5, h6, h7, h8, h9⟩ := h
  simp only [assignmentPreds, combineAF, List.zipWith]
  rw [optMatch_combOpt _ _ _ h1, optMatch_combOpt _ _ _ h2,
      optMatch_combOpt _ _ _ h3, optMatch_combOpt _ _ _ h4,
      optMatch_combOpt _ _ _ h5, optMatch_combOpt _ _ _ h6,
      optMatch_combOpt _ _ _ h7, optMatch_combOpt _ _ _ h8,
      optMatch_combOpt _ _ _ h9]

/-- Under independence, the stage predicates of the combined course
criteria are the elementwise conjunctions of the two stage predicate
lists. -/
theorem coursePreds_combine (f1 f2 : CourseFilter) (h : disjointCF f1 f2) :
    coursePreds (combineCF f1 f2) =
      List.zipWith andPred (coursePreds f1) (coursePreds f2) := by
  obtain ⟨h1, h2, h3, h4, h5, h6, h7⟩ := h
  simp only [coursePreds, combineCF, List.zipWith]
  rw [optMatch_combOpt _ _ _ h1, optMatch_combOpt _ _ _ h2,
      optMatch_combOpt _ _ _ h3, optMatch_combOpt _ _ _ h4,
      optMatch_combOpt _ _ _ h5, optMatch_combOpt _ _ _ h6,
      optMatch_combOpt _ _ _ h7]

/-- Matching the combination of independent assignment criteria is the
conjunction of matching each. -/
theorem matchesAssignment_combine (f1 f2 : AssignmentFilter)
    (h : disjointAF f1 f2) (a : AssignmentRead) :
    matchesAssignment (combineAF f1 f2) a =
      (matchesAssignment f1 a && matchesAssignment f2 a) := by
  unfold matchesAssignment
  rw [assignmentPreds_combine f1 f2 h]
  exact all_zipWith_andPred _ _ (by simp [assignmentPreds]) a

/-- Matching the combination of independent course criteria is the
conjunction of matching each. -/
theorem matchesCourse_combine (f1 f2 : CourseFilter)
    (h : disjointCF f1 f2) (c : CourseRead) :
    matchesCourse (combineCF f1 f2) c =
      (matchesCourse f1 c && matchesCourse f2 c) := by
  unfold matchesCourse
  rw [coursePreds_combine f1 f2 h]
  exact all_zipWith_andPred _ _ (by simp [coursePreds]) c

/-- Inversion of a successful assignment merge: id, course_id and the two
timestamps pass through from the stored record, and each updatable field
of the result is the payload's value when the field was explicitly
present and the stored value otherwise (the appField equations). -/
theorem mergeAssignment_ok (old : AssignmentRead) (u : AssignmentUpdate)
    (r : AssignmentRead) (h : mergeAssignment old u = Except.ok r) :
    r.id = old.id ∧ r.course_id = old.course_id ∧
    r.created_at = old.created_at ∧ r.updated_at = old.updated_at ∧
    appField old.title u.title = some r.title ∧
    appField old.description u.description = some r.description ∧
    appField old.points u.points = some r.points ∧
    appField old.due_date u.due_date = some r.due_date ∧
    appField old.late_submission_allowed u.late_submission_allowed
      = some r.late_submission_allowed ∧
    appField old.group_assignment u.group_assignment
      = some r.group_assignment := by
  unfold mergeAssignment at h
  split at h
  · injection h with h2
    subst h2
    rename_i ht hd hp hdd hls hg
    exact ⟨rfl, rfl, rfl, rfl, ht, hd, hp, hdd, hls, hg⟩
  · simp at h

/-- A failed assignment merge always signals the validation error, never
NotFound. -/
theorem mergeAssignment_error (old : AssignmentRead) (u : AssignmentUpdate)
    (e : ApiError) (h : mergeAssignment old u = Except.error e) :
    e = ApiError.validationError := by
  unfold mergeAssignment at h
  split at h
  · simp at h
  · injection h with h2
    exact h2.symm

/-- Inversion of a successful course merge. -/
theorem mergeCourse_ok (old : CourseRead) (u : CourseUpdate)
    (r : CourseRead) (h : mergeCourse old u = Except.ok r) :
    r.id = old.id ∧ r.created_at = old.created_at ∧
    r.updated_at = old.updated_at ∧
    appField old.title u.title = some r.title ∧
    r.description = appOptField old.description u.description ∧
    appField old.credits u.credits = some r.credits ∧
    appField old.department u.department = some r.department ∧
    appField old.level u.level = some r.level ∧
    appField old.semester u.semester = some r.semester ∧
    appField old.year u.year = some r.year := by
  unfold mergeCourse at h
  split at h
  · injection h with h2
    subst h2
    rename_i ht hcr hdep hlv hsem hy
    exact ⟨rfl, rfl, rfl, ht, rfl, hcr, hdep, hlv, hsem, hy⟩
  · simp at h

/-- A failed course merge always signals the validation error, never
NotFound. -/
theorem mergeCourse_error (old : CourseRead) (u : CourseUpdate)
    (e : ApiError) (h : mergeCourse old u = Except.error e) :
    e = ApiError.validationError := by
  unfold mergeCourse at h
  split at h
  · simp at h
  · injection h with h2
    exact h2.symm

/-- Inversion of a successful partial update: the id was present, the
merge succeeded with the returned record, and the store was rewritten at
that id. -/
theorem update_assignment_ok (s : Store AssignmentRead) (aid : Nat)
    (u : AssignmentUpdate) (r : AssignmentRead) (s2 : Store AssignmentRead)
    (h : update_assignment s aid u = (Except.ok r, s2)) :
    ∃ old, storeGet s aid = some old ∧ mergeAssignment old u = Except.ok r ∧
      s2 = storeSet s aid r := by
  unfold update_assignment at h
  split at h
  next hg => simp at h
  next old hg =>
    split at h
    next e hm => simp at h
    next r2 hm =>
      simp only [Prod.mk.injEq, Except.ok.injEq] at h
      obtain ⟨h1, h2⟩ := h
      subst h1
      exact ⟨old, hg, hm, h2.symm⟩

/-- Inversion of a successful course partial update. -/
theorem update_course_ok (s : Store CourseRead) (cid : Nat)
    (u : CourseUpdate) (r : CourseRead) (s2 : Store CourseRead)
    (h : update_course s cid u = (Except.ok r, s2)) :
    ∃ old, storeGet s cid = some old ∧ mergeCourse old u = Except.ok r ∧
      s2 = storeSet s cid r := by
  unfold update_course at h
  split at h
  next hg => simp at h
  next old hg =>
    split at h
    next e hm => simp at h
    next r2 hm =>
      simp only [Prod.mk.injEq, Except.ok.injEq] at h
      obtain ⟨h1, h2⟩ := h
      subst h1
      exact ⟨old, hg, hm, h2.symm⟩

/-- The course replace handler can never produce a success outcome: with
an absent id it signals NotFound, and with a present id the CourseRead
construction raises the datetime default-factory TypeError. -/
theorem replace_course_ne_ok (cs : Store CourseRead) (cid : Nat)
    (cp : CourseCreate) (r2 : CourseRead) (cs2 : Store CourseRead) :
    replace_course cs cid cp ≠ (Except.ok r2, cs2) := by
  unfold replace_course
  cases hg : storeGet cs cid with
  | none => simp
  | some old => simp [mkCourseRead]

/-- C3: the claim states that Create never fails for every valid creation
payload. The code contradicts this for courses: CourseRead declares
created_at and updated_at with default_factory=datetime (the class, not
datetime.utcnow), so CourseRead(**course.model_dump()) calls datetime()
with no arguments and raises TypeError on every create_course request,
before the store is written. This theorem evaluates the embedded handler:
for every store, payload and generated id, create_course raises the
TypeError and leaves the store unchanged. -/
theorem C3_create_course_always_raises (s : Store CourseRead)
    (payload : CourseCreate) (gen : Nat) :
    create_course s payload gen = (Except.error ApiError.typeError, s) := rfl

/-- C2 counterexample: the claim states that a successful FullReplace
preserves the original created_at. On the concrete store holding
exAssignment (created_at day 19700) under id 1, replacing it at time day
19900 succeeds and stores created_at day 19900, different from the
original: the AssignmentCreate dump carries no created_at, so the
default factory restamps it. -/
theorem C2_counterexample :
    (replace_assignment [(1, exAssignment)] 1 exACreate
        { day := 19900, tod := 10 }).1 =
      Except.ok (replacedAssignment 1 exACreate { day := 19900, tod := 10 }) ∧
    (replacedAssignment 1 exACreate { day := 19900, tod := 10 }).created_at ≠
      exAssignment.created_at := by
  exact ⟨rfl, by decide⟩

/-- C2 amended: after FullReplace succeeds on an assignment, the stored
record's created_at is restamped to the current time (not preserved from
the original), as is updated_at; and for courses FullReplace on a present
id never succeeds at all — it raises the datetime default-factory
TypeError and leaves the store unchanged. -/
theorem C2_replace_restamps_created_at (s : Store AssignmentRead)
    (aid : Nat) (payload : AssignmentCreate) (now : PyDateTime)
    (old : AssignmentRead) (h : storeGet s aid = some old)
    (cs : Store CourseRead) (cid : Nat) (cp : CourseCreate)
    (cold : CourseRead) (hc : storeGet cs cid = some cold) :
    replace_assignment s aid payload now =
      (Except.ok (replacedAssignment aid payload now),
       storeSet s aid (replacedAssignment aid payload now)) ∧
    (replacedAssignment aid payload now).created_at = now ∧
    (replacedAssignment aid payload now).updated_at = now ∧
    replace_course cs cid cp = (Except.error ApiError.typeError, cs) := by
  refine ⟨?_, rfl, rfl, ?_⟩
  · unfold replace_assignment
    rw [h]
  · unfold replace_course
    rw [hc]
    rfl

/-- C2 witness: the amended statement applied to the concrete stores
holding exAssignment under id 1 and exCourse under id 2. -/
theorem C2_witness :
    replace_assignment [(1, exAssignment)] 1 exACreate
        { day := 19900, tod := 10 } =
      (Except.ok (replacedAssignment 1 exACreate { day := 19900, tod := 10 }),
       storeSet [(1, exAssignment)] 1
         (replacedAssignment 1 exACreate { day := 19900, tod := 10 })) ∧
    replace_course [(2, exCourse)] 2 exCCreate =
      (Except.error ApiError.typeError, [(2, exCourse)]) := by
  have h := C2_replace_restamps_created_at [(1, exAssignment)] 1 exACreate
    { day := 19900, tod := 10 } exAssignment rfl
    [(2, exCourse)] 2 exCCreate exCourse rfl
  exact ⟨h.1, h.2.2.2⟩

/-- C6: a successful FullReplace stores and returns a record whose id is
the path id, whatever id (none or different) the payload carries: line
171 / 284 of src/main.py overwrite the dumped payload id with the path
id. The assignment half is substantive; the course half holds because
replace_course has no success outcome at all (see C2/C3). -/
theorem C6_replace_forces_path_id (s : Store AssignmentRead) (aid : Nat)
    (payload : AssignmentCreate) (now : PyDateTime) (old : AssignmentRead)
    (h : storeGet s aid = some old) :
    replace_assignment s aid payload now =
      (Except.ok (replacedAssignment aid payload now),
       storeSet s aid (replacedAssignment aid payload now)) ∧
    (replacedAssignment aid payload now).id = aid ∧
    storeGet (storeSet s aid (replacedAssignment aid payload now)) aid =
      some (replacedAssignment aid payload now) ∧
    (∀ (cs : Store CourseRead) (cid : Nat) (cp : CourseCreate)
      (r2 : CourseRead) (cs2 : Store CourseRead),
      replace_course cs cid cp = (Except.ok r2, cs2) → r2.id = cid) := by
  refine ⟨?_, rfl, storeGet_storeSet_self _ _ _, ?_⟩
  · unfold replace_assignment
    rw [h]
  · intro cs cid cp r2 cs2 hh
    exact absurd hh (replace_course_ne_ok cs cid cp r2 cs2)

/-- C6 witness: the theorem applied to the concrete store holding
exAssignment under id 1, with a payload carrying the different id 5. -/
theorem C6_witness :
    replace_assignment [(1, exAssignment)] 1 exACreate5
        { day := 19900, tod := 10 } =
      (Except.ok (replacedAssignment 1 exACreate5 { day := 19900, tod := 10 }),
       storeSet [(1, exAssignment)] 1
         (replacedAssignment 1 exACreate5 { day := 19900, tod := 10 })) ∧
    (replacedAssignment 1 exACreate5 { day := 19900, tod := 10 }).id = 1 :=
  ⟨(C6_replace_forces_path_id [(1, exAssignment)] 1 exACreate5
      { day := 19900, tod := 10 } exAssignment rfl).1,
   (C6_replace_forces_path_id [(1, exAssignment)] 1 exACreate5
      { day := 19900, tod := 10 } exAssignment rfl).2.1⟩

/-- C4 counterexample: the claim states that for every valid creation
payload the returned id is distinct from all previously created ids. The
creation payload may carry a caller-supplied id (the id field of
AssignmentBase is caller-suppliable with a uuid4 default): posting a
payload with id 5 to a store already holding id 5 returns id 5, which
collides with the previously created record, and the resulting store
maps id 5 to the new record — the previously created exA5 is silently
overwritten and gone from the store. -/
theorem C4_counterexample :
    (create_assignment [(5, exA5)] exACreate5 99
        { day := 19900, tod := 0 }).1.id = 5 ∧
    storeGet [(5, exA5)] 5 = some exA5 ∧
    (create_assignment [(5, exA5)] exACreate5 99
        { day := 19900, tod := 0 }).2 =
      [(5, (create_assignment [(5, exA5)] exACreate5 99
        { day := 19900, tod := 0 }).1)] ∧
    (create_assignment [(5, exA5)] exACreate5 99
        { day := 19900, tod := 0 }).1 ≠ exA5 := ⟨rfl, rfl, rfl, by decide⟩

/-- C4 amended: when the caller did not supply an id and the generated
uuid4 value (the gen oracle) does not collide with any id currently in
the store, the created assignment's id is fresh, its created_at equals
its updated_at, and the record is stored under that id. When the caller
did supply an id that is already stored, Create returns that same id and
overwrites: the store assignment rewrites the existing entry so that the
id now maps to the new record. -/
theorem C4_create_fresh_id (s : Store AssignmentRead)
    (p : AssignmentCreate) (gen : Nat) (now : PyDateTime)
    (s2 : Store AssignmentRead) (p2 : AssignmentCreate) (aid2 gen2 : Nat)
    (now2 : PyDateTime) (old2 : AssignmentRead)
    (hid : p.id = none) (hg : storeGet s gen = none)
    (hid2 : p2.id = some aid2) (hex : storeGet s2 aid2 = some old2) :
    (create_assignment s p gen now).1.id = gen ∧
    storeGet s (create_assignment s p gen now).1.id = none ∧
    (create_assignment s p gen now).1.created_at =
      (create_assignment s p gen now).1.updated_at ∧
    (create_assignment s p gen now).2 =
      storeSet s gen (create_assignment s p gen now).1 ∧
    (create_assignment s2 p2 gen2 now2).1.id = aid2 ∧
    storeGet s2 aid2 = some old2 ∧
    (create_assignment s2 p2 gen2 now2).2 =
      storeSet s2 aid2 (create_assignment s2 p2 gen2 now2).1 ∧
    storeGet (create_assignment s2 p2 gen2 now2).2 aid2 =
      some (create_assignment s2 p2 gen2 now2).1 := by
  refine ⟨?_, ?_, rfl, ?_, ?_, hex, ?_, ?_⟩ <;>
    simp [create_assignment, hid, hg, hid2, storeGet_storeSet_self]

/-- C4 witness: the amended statement applied to the empty store with the
id-less payload exACreate and generated id 42, and to the store holding
exA5 under id 5 with the payload exACreate5 that carries id 5. -/
theorem C4_witness :
    (create_assignment [] exACreate 42 { day := 19900, tod := 0 }).1.id = 42 ∧
    storeGet ([] : Store AssignmentRead) (create_assignment [] exACreate 42
      { day := 19900, tod := 0 }).1.id = none ∧
    (create_assignment [] exACreate 42 { day := 19900, tod := 0 }).1.created_at
      = (create_assignment [] exACreate 42
          { day := 19900, tod := 0 }).1.updated_at ∧
    (create_assignment [] exACreate 42 { day := 19900, tod := 0 }).2 =
      storeSet [] 42 (create_assignment [] exACreate 42
        { day := 19900, tod := 0 }).1 ∧
    (create_assignment [(5, exA5)] exACreate5 99
        { day := 19901, tod := 0 }).1.id = 5 ∧
    storeGet [(5, exA5)] 5 = some exA5 ∧
    (create_assignment [(5, exA5)] exACreate5 99
        { day := 19901, tod := 0 }).2 =
      storeSet [(5, exA5)] 5 (create_assignment [(5, exA5)] exACreate5 99
        { day := 19901, tod := 0 }).1 ∧
    storeGet (create_assignment [(5, exA5)] exACreate5 99
        { day := 19901, tod := 0 }).2 5 =
      some (create_assignment [(5, exA5)] exACreate5 99
        { day := 19901, tod := 0 }).1 :=
  C4_create_fresh_id [] exACreate 42 { day := 19900, tod := 0 }
    [(5, exA5)] exACreate5 5 99 { day := 19901, tod := 0 } exA5
    rfl rfl rfl rfl

/-- C1 counterexample: the claim states that after a successful
single-field PartialUpdate the record's updated_at is strictly greater
than before. On the concrete store holding exAssignment under id 1,
updating only the title succeeds, yet the stored updated_at equals the
pre-update one (the stored dict already carries updated_at, so no default
factory fires and it is copied verbatim), hence it is not strictly
greater. -/
theorem C1_counterexample :
    (update_assignment [(1, exAssignment)] 1 (updTitle "New")).1 =
      Except.ok { exAssignment with title := "New" } ∧
    ({ exAssignment with title := "New" } : AssignmentRead).updated_at =
      exAssignment.updated_at ∧
    PyDateTime.ltB exAssignment.updated_at
      ({ exAssignment with title := "New" } : AssignmentRead).updated_at
      = false := by
  refine ⟨rfl, rfl, by decide⟩

/-- C1 amended: after a successful single-field PartialUpdate, fetching
the id yields a record identical to the pre-update record except the
updated field; created_at is unchanged AND updated_at is unchanged as
well (equal to the pre-update value, not strictly greater — both PATCH
handlers copy the dumped updated_at back instead of restamping it).
Stated for each of the six updatable assignment fields and each of the
seven updatable course fields. -/
theorem C1_partial_update_single_field (s : Store AssignmentRead)
    (aid : Nat) (old : AssignmentRead) (h : storeGet s aid = some old)
    (cs : Store CourseRead) (cid : Nat) (cold : CourseRead)
    (hc : storeGet cs cid = some cold) :
    (∀ v : String,
      update_assignment s aid (updTitle v) =
        (Except.ok { old with title := v },
         storeSet s aid { old with title := v }) ∧
      get_assignment (storeSet s aid { old with title := v }) aid =
        Except.ok { old with title := v } ∧
      ({ old with title := v } : AssignmentRead).created_at = old.created_at ∧
      ({ old with title := v } : AssignmentRead).updated_at = old.updated_at) ∧
    (∀ v : String,
      update_assignment s aid (updDescription v) =
        (Except.ok { old with description := v },
         storeSet s aid { old with description := v }) ∧
      get_assignment (storeSet s aid { old with description := v }) aid =
        Except.ok { old with description := v } ∧
      ({ old with description := v } : AssignmentRead).created_at
        = old.created_at ∧
      ({ old with description := v } : AssignmentRead).updated_at
        = old.updated_at) ∧
    (∀ v : Rat,
      update_assignment s aid (updPoints v) =
        (Except.ok { old with points := v },
         storeSet s aid { old with points := v }) ∧
      get_assignment (storeSet s aid { old with points := v }) aid =
        Except.ok { old with points := v } ∧
      ({ old with points := v } : AssignmentRead).created_at = old.created_at ∧
      ({ old with points := v } : AssignmentRead).updated_at
        = old.updated_at) ∧
    (∀ v : PyDateTime,
      update_assignment s aid (updDueDate v) =
        (Except.ok { old with due_date := v },
         storeSet s aid { old with due_date := v }) ∧
      get_assignment (storeSet s aid { old with due_date := v }) aid =
        Except.ok { old with due_date := v } ∧
      ({ old with due_date := v } : AssignmentRead).created_at
        = old.created_at ∧
      ({ old with due_date := v } : AssignmentRead).updated_at
        = old.updated_at) ∧
    (∀ v : Bool,
      update_assignment s aid (updLate v) =
        (Except.ok { old with late_submission_allowed := v },
         storeSet s aid { old with late_submission_allowed := v }) ∧
      get_assignment (storeSet s aid
          { old with late_submission_allowed := v }) aid =
        Except.ok { old with late_submission_allowed := v } ∧
      ({ old with late_submission_allowed := v } : AssignmentRead).created_at
        = old.created_at ∧
      ({ old with late_submission_allowed := v } : AssignmentRead).updated_at
        = old.updated_at) ∧
    (∀ v : Bool,
      update_assignment s aid (updGroup v) =
        (Except.ok { old with group_assignment := v },
         storeSet s aid { old with group_assignment := v }) ∧
      get_assignment (storeSet s aid { old with group_assignment := v }) aid =
        Except.ok { old with group_assignment := v } ∧
      ({ old with group_assignment := v } : AssignmentRead).created_at
        = old.created_at ∧
      ({ old with group_assignment := v } : AssignmentRead).updated_at
        = old.updated_at) ∧
    (∀ v : String,
      update_course cs cid (cupdTitle v) =
        (Except.ok { cold with title := v },
         storeSet cs cid { cold with title := v }) ∧
      get_course (storeSet cs cid { cold with title := v }) cid =
        Except.ok { cold with title := v } ∧
      ({ cold with title := v } : CourseRead).created_at = cold.created_at ∧
      ({ cold with title := v } : CourseRead).updated_at = cold.updated_at) ∧
    (∀ v : String,
      update_course cs cid (cupdDescription v) =
        (Except.ok { cold with description := some v },
         storeSet cs cid { cold with description := some v }) ∧
      get_course (storeSet cs cid { cold with description := some v }) cid =
        Except.ok { cold with description := some v } ∧
      ({ cold with description := some v } : CourseRead).created_at
        = cold.created_at ∧
      ({ cold with description := some v } : CourseRead).updated_at
        = cold.updated_at) ∧
    (∀ v : Int,
      update_course cs cid (cupdCredits v) =
        (Except.ok { cold with credits := v },
         storeSet cs cid { cold with credits := v }) ∧
      get_course (storeSet cs cid { cold with credits := v }) cid =
        Except.ok { cold with credits := v } ∧
      ({ cold with credits := v } : CourseRead).created_at = cold.created_at ∧
      ({ cold with credits := v } : CourseRead).updated_at
        = cold.updated_at) ∧
    (∀ v : String,
      update_course cs cid (cupdDepartment v) =
        (Except.ok { cold with department := v },
         storeSet cs cid { cold with department := v }) ∧
      get_course (storeSet cs cid { cold with department := v }) cid =
        Except.ok { cold with department := v } ∧
      ({ cold with department := v } : CourseRead).created_at
        = cold.created_at ∧
      ({ cold with department := v } : CourseRead).updated_at
        = cold.updated_at) ∧
    (∀ v : Int,
      update_course cs cid (cupdLevel v) =
        (Except.ok { cold with level := v },
         storeSet cs cid { cold with level := v }) ∧
      get_course (storeSet cs cid { cold with level := v }) cid =
        Except.ok { cold with level := v } ∧
      ({ cold with level := v } : CourseRead).created_at = cold.created_at ∧
      ({ cold with level := v } : CourseRead).updated_at = cold.updated_at) ∧
    (∀ v : String,
      update_course cs cid (cupdSemester v) =
        (Except.ok { cold with semester := v },
         storeSet cs cid { cold with semester := v }) ∧
      get_course (storeSet cs cid { cold with semester := v }) cid =
        Except.ok { cold with semester := v } ∧
      ({ cold with semester := v } : CourseRead).created_at
        = cold.created_at ∧
      ({ cold with semester := v } : CourseRead).updated_at
        = cold.updated_at) ∧
    (∀ v : Int,
      update_course cs cid (cupdYear v) =
        (Except.ok { cold with year := v },
         storeSet cs cid { cold with year := v }) ∧
      get_course (storeSet cs cid { cold with year := v }) cid =
        Except.ok { cold with year := v } ∧
      ({ cold with year := v } : CourseRead).created_at = cold.created_at ∧
      ({ cold with year := v } : CourseRead).updated_at = cold.updated_at) := by
  refine ⟨fun v => ⟨?_, ?_, rfl, rfl⟩, fun v => ⟨?_, ?_, rfl, rfl⟩,
          fun v => ⟨?_, ?_, rfl, rfl⟩, fun v => ⟨?_, ?_, rfl, rfl⟩,
          fun v => ⟨?_, ?_, rfl, rfl⟩, fun v => ⟨?_, ?_, rfl, rfl⟩,
          fun v => ⟨?_, ?_, rfl, rfl⟩, fun v => ⟨?_, ?_, rfl, rfl⟩,
          fun v => ⟨?_, ?_, rfl, rfl⟩, fun v => ⟨?_, ?_, rfl, rfl⟩,
          fun v => ⟨?_, ?_, rfl, rfl⟩, fun v => ⟨?_, ?_, rfl, rfl⟩,
          fun v => ⟨?_, ?_, rfl, rfl⟩⟩ <;>
    simp [update_assignment, h, mergeAssignment, appField, updTitle,
      updDescription, updPoints, updDueDate, updLate, updGroup,
      get_assignment, storeGet_storeSet_self,
      update_course, hc, mergeCourse, appOptField, cupdTitle,
      cupdDescription, cupdCredits, cupdDepartment, cupdLevel,
      cupdSemester, cupdYear, get_course]

/-- C1 witness: the amended statement applied to the concrete stores
holding exAssignment under id 1 and exCourse under id 2, updating the
assignment title to New and the course year to 2026. -/
theorem C1_witness :
    update_assignment [(1, exAssignment)] 1 (updTitle "New") =
      (Except.ok { exAssignment with title := "New" },
       storeSet [(1, exAssignment)] 1 { exAssignment with title := "New" }) ∧
    get_assignment (storeSet [(1, exAssignment)] 1
        { exAssignment with title := "New" }) 1 =
      Except.ok { exAssignment with title := "New" } ∧
    update_course [(2, exCourse)] 2 (cupdYear 2026) =
      (Except.ok { exCourse with year := 2026 },
       storeSet [(2, exCourse)] 2 { exCourse with year := 2026 }) := by
  have h := C1_partial_update_single_field [(1, exAssignment)] 1
    exAssignment rfl [(2, exCourse)] 2 exCourse rfl
  exact ⟨(h.1 "New").1, (h.1 "New").2.1,
    (h.2.2.2.2.2.2.2.2.2.2.2.2 2026).1⟩

/-- C10: a PartialUpdate whose payload explicitly sets a required
assignment field (title, description, points, due_date) to null raises
the pydantic ValidationError — not NotFound — and leaves the store
unchanged: AssignmentRead(**stored) is evaluated before the store
assignment on line 155, so the failed update is atomic. -/
theorem C10_null_required_field_rejected (s : Store AssignmentRead)
    (aid : Nat) (old : AssignmentRead) (h : storeGet s aid = some old) :
    update_assignment s aid nullTitleUpd =
      (Except.error ApiError.validationError, s) ∧
    update_assignment s aid nullDescriptionUpd =
      (Except.error ApiError.validationError, s) ∧
    update_assignment s aid nullPointsUpd =
      (Except.error ApiError.validationError, s) ∧
    update_assignment s aid nullDueDateUpd =
      (Except.error ApiError.validationError, s) := by
  refine ⟨?_, ?_, ?_, ?_⟩ <;>
    simp [update_assignment, h, mergeAssignment, appField, nullTitleUpd,
      nullDescriptionUpd, nullPointsUpd, nullDueDateUpd]

/-- C10 witness: the statement applied to the concrete store holding
exAssignment under id 1. -/
theorem C10_witness :
    update_assignment [(1, exAssignment)] 1 nullTitleUpd =
      (Except.error ApiError.validationError, [(1, exAssignment)]) ∧
    update_assignment [(1, exAssignment)] 1 nullPointsUpd =
      (Except.error ApiError.validationError, [(1, exAssignment)]) :=
  ⟨(C10_null_required_field_rejected [(1, exAssignment)] 1 exAssignment
      rfl).1,
   (C10_null_required_field_rejected [(1, exAssignment)] 1 exAssignment
      rfl).2.2.1⟩

/-- C5: a successful PartialUpdate merges the payload into the stored
record fieldwise: a field explicitly present in the payload — whatever
its value, including falsy ones, which are ordinary values of the field
types here — contributes the payload's value, and a field not present
keeps the stored value (these are the appField / appOptField equations);
id and created_at (and the fields the Update models do not carry:
course_id and updated_at) are never affected. Stated for both entity
types; the new store is the old one rewritten at the id. -/
theorem C5_partial_merge_semantics (s : Store AssignmentRead) (aid : Nat)
    (u : AssignmentUpdate) (old r : AssignmentRead)
    (s2 : Store AssignmentRead) (h1 : storeGet s aid = some old)
    (h2 : update_assignment s aid u = (Except.ok r, s2))
    (cs : Store CourseRead) (cid : Nat) (cu : CourseUpdate)
    (cold cr : CourseRead) (cs2 : Store CourseRead)
    (h3 : storeGet cs cid = some cold)
    (h4 : update_course cs cid cu = (Except.ok cr, cs2)) :
    r.id = old.id ∧ r.course_id = old.course_id ∧
    r.created_at = old.created_at ∧ r.updated_at = old.updated_at ∧
    appField old.title u.title = some r.title ∧
    appField old.description u.description = some r.description ∧
    appField old.points u.points = some r.points ∧
    appField old.due_date u.due_date = some r.due_date ∧
    appField old.late_submission_allowed u.late_submission_allowed
      = some r.late_submission_allowed ∧
    appField old.group_assignment u.group_assignment
      = some r.group_assignment ∧
    s2 = storeSet s aid r ∧
    cr.id = cold.id ∧ cr.created_at = cold.created_at ∧
    cr.updated_at = cold.updated_at ∧
    appField cold.title cu.title = some cr.title ∧
    cr.description = appOptField cold.description cu.description ∧
    appField cold.credits cu.credits = some cr.credits ∧
    appField cold.department cu.department = some cr.department ∧
    appField cold.level cu.level = some cr.level ∧
    appField cold.semester cu.semester = some cr.semester ∧
    appField cold.year cu.year = some cr.year ∧
    cs2 = storeSet cs cid cr := by
  obtain ⟨old2, hg, hm, hs⟩ := update_assignment_ok s aid u r s2 h2
  rw [h1] at hg
  injection hg with hg2
  subst hg2
  obtain ⟨e1, e2, e3, e4, e5, e6, e7, e8, e9, e10⟩ :=
    mergeAssignment_ok old u r hm
  obtain ⟨cold2, hcg, hcm, hcs⟩ := update_course_ok cs cid cu cr cs2 h4
  rw [h3] at hcg
  injection hcg with hcg2
  subst hcg2
  obtain ⟨f1, f2, f3, f4, f5, f6, f7, f8, f9, f10⟩ :=
    mergeCourse_ok cold cu cr hcm
  exact ⟨e1, e2, e3, e4, e5, e6, e7, e8, e9, e10, hs,
         f1, f2, f3, f4, f5, f6, f7, f8, f9, f10, hcs⟩

/-- C5 witness: the statement applied to concrete single-record stores,
updating the assignment's title (and setting group_assignment to false,
a falsy value) while leaving the course untouched by an empty payload. -/
theorem C5_witness :
    appField exAssignment.title
      ({ title := some (some "T2"), group_assignment := some (some false) }
        : AssignmentUpdate).title = some "T2" ∧
    appField exCourse.credits ({} : CourseUpdate).credits =
      some exCourse.credits := by
  have h := C5_partial_merge_semantics [(1, exAssignment)] 1
    { title := some (some "T2"), group_assignment := some (some false) }
    exAssignment
    { exAssignment with title := "T2", group_assignment := false }
    (storeSet [(1, exAssignment)] 1
      { exAssignment with title := "T2", group_assignment := false })
    rfl rfl
    [(2, exCourse)] 2 {} exCourse exCourse
    (storeSet [(2, exCourse)] 2 exCourse) rfl rfl
  exact ⟨h.2.2.2.2.1, h.2.2.2.2.2.2.2.2.2.2.2.2.2.2.2.2.1⟩

/-- C7: list filtering is conjunctive and compositional. With zero
criteria the handlers return every stored entity unchanged; with any
criteria configuration the result is exactly the entities satisfying all
supplied criteria (one filter by the conjunction); and for two
independent criteria configurations, filtering by their union equals
filtering by one and then the other, in either order. Stated for both
resource types. -/
theorem C7_filter_conjunctive_compositional
    (s : Store AssignmentRead) (l : List AssignmentRead)
    (f f1 f2 : AssignmentFilter)
    (cs : Store CourseRead) (cl : List CourseRead)
    (g g1 g2 : CourseFilter)
    (hd : disjointAF f1 f2) (hd2 : disjointCF g1 g2) :
    list_assignments emptyAssignmentFilter s = storeValues s ∧
    filterAssignments emptyAssignmentFilter l = l ∧
    filterAssignments f l = l.filter (matchesAssignment f) ∧
    filterAssignments (combineAF f1 f2) l =
      filterAssignments f2 (filterAssignments f1 l) ∧
    filterAssignments (combineAF f1 f2) l =
      filterAssignments f1 (filterAssignments f2 l) ∧
    list_courses emptyCourseFilter cs = storeValues cs ∧
    filterCourses emptyCourseFilter cl = cl ∧
    filterCourses g cl = cl.filter (matchesCourse g) ∧
    filterCourses (combineCF g1 g2) cl =
      filterCourses g2 (filterCourses g1 cl) ∧
    filterCourses (combineCF g1 g2) cl =
      filterCourses g1 (filterCourses g2 cl) := by
  have emptyA : ∀ l2 : List AssignmentRead,
      filterAssignments emptyAssignmentFilter l2 = l2 := by
    intro l2
    rw [filterAssignments_eq_filter]
    have hm : matchesAssignment emptyAssignmentFilter = fun _ => true := by
      funext a
      simp [matchesAssignment, assignmentPreds, emptyAssignmentFilter,
        optMatch]
    rw [hm]
    exact List.filter_true l2
  have emptyC : ∀ l2 : List CourseRead,
      filterCourses emptyCourseFilter l2 = l2 := by
    intro l2
    rw [filterCourses_eq_filter]
    have hm : matchesCourse emptyCourseFilter = fun _ => true := by
      funext c
      simp [matchesCourse, coursePreds, emptyCourseFilter, optMatch]
    rw [hm]
    exact List.filter_true l2
  have keyA : filterAssignments (combineAF f1 f2) l =
      l.filter (fun a => matchesAssignment f1 a && matchesAssignment f2 a) := by
    rw [filterAssignments_eq_filter,
      funext (matchesAssignment_combine f1 f2 hd)]
  have keyC : filterCourses (combineCF g1 g2) cl =
      cl.filter (fun c => matchesCourse g1 c && matchesCourse g2 c) := by
    rw [filterCourses_eq_filter, funext (matchesCourse_combine g1 g2 hd2)]
  refine ⟨emptyA _, emptyA _, filterAssignments_eq_filter f l, ?_, ?_,
          emptyC _, emptyC _, filterCourses_eq_filter g cl, ?_, ?_⟩
  · rw [keyA, filterAssignments_eq_filter f1, filterAssignments_eq_filter f2,
      filterChain]
  · rw [keyA, filterAssignments_eq_filter f2, filterAssignments_eq_filter f1,
      filterChain]
    rw [show (fun a => matchesAssignment f1 a && matchesAssignment f2 a)
          = (fun a => matchesAssignment f2 a && matchesAssignment f1 a)
        from funext fun a => Bool.and_comm _ _]
  · rw [keyC, filterCourses_eq_filter g1, filterCourses_eq_filter g2,
      filterChain]
  · rw [keyC, filterCourses_eq_filter g2, filterCourses_eq_filter g1,
      filterChain]
    rw [show (fun c => matchesCourse g1 c && matchesCourse g2 c)
          = (fun c => matchesCourse g2 c && matchesCourse g1 c)
        from funext fun c => Bool.and_comm _ _]

/-- C7 witness: the statement applied to concrete singleton stores and
lists, with the independent criteria pairs min_points / group_assignment
and department / min_credits. -/
theorem C7_witness :
    list_assignments emptyAssignmentFilter [(1, exAssignment)] =
      storeValues [(1, exAssignment)] ∧
    filterAssignments
        (combineAF { min_points := some 10 } { group_assignment := some false })
        [exAssignment] =
      filterAssignments { group_assignment := some false }
        (filterAssignments { min_points := some 10 } [exAssignment]) ∧
    filterCourses
        (combineCF { department := some "math" } { min_credits := some 3 })
        [exCourse] =
      filterCourses { min_credits := some 3 }
        (filterCourses { department := some "math" } [exCourse]) := by
  have h := C7_filter_conjunctive_compositional [(1, exAssignment)]
    [exAssignment] emptyAssignmentFilter
    { min_points := some 10 } { group_assignment := some false }
    [(2, exCourse)] [exCourse] emptyCourseFilter
    { department := some "math" } { min_credits := some 3 }
    (by decide) (by decide)
  exact ⟨h.1, h.2.2.2.1, h.2.2.2.2.2.2.2.2.1⟩

/-- C8: the due-date bounds compare the calendar date only, inclusively:
an assignment due at any time of day on date D is retained by
due_date_to = D and by due_date_from = D, and dropped by
due_date_to = D minus one day (the filter compares a.due_date.date()
against the parsed bound date). -/
theorem C8_due_date_bounds_date_only (D : Int) (tod : Nat)
    (a : AssignmentRead) (h : a.due_date = { day := D, tod := tod }) :
    filterAssignments { emptyAssignmentFilter with due_date_to := some D }
      [a] = [a] ∧
    filterAssignments { emptyAssignmentFilter with due_date_from := some D }
      [a] = [a] ∧
    filterAssignments
      { emptyAssignmentFilter with due_date_to := some (D - 1) } [a] = [] := by
  refine ⟨?_, ?_, ?_⟩
  · simp [filterAssignments, applyFilter, emptyAssignmentFilter, h,
      List.filter_cons]
  · simp [filterAssignments, applyFilter, emptyAssignmentFilter, h,
      List.filter_cons]
  · simp [filterAssignments, applyFilter, emptyAssignmentFilter, h,
      List.filter_cons]

/-- C8 witness: the statement applied to exAssignment, due on day 19802
at time-of-day 55800 (the 2024-03-20T15:30 scenario): a due_date_to of
19802 includes it, 19801 excludes it. -/
theorem C8_witness :
    filterAssignments
      { emptyAssignmentFilter with due_date_to := some 19802 }
      [exAssignment] = [exAssignment] ∧
    filterAssignments
      { emptyAssignmentFilter with due_date_to := some (19802 - 1) }
      [exAssignment] = [] :=
  ⟨(C8_due_date_bounds_date_only 19802 55800 exAssignment rfl).1,
   (C8_due_date_bounds_date_only 19802 55800 exAssignment rfl).2.2⟩

/-- C9: each of Get, PartialUpdate, FullReplace and Delete signals
NotFound exactly when the id is absent from the store (a present id may
still fail with a validation or type error, but never with NotFound),
for both resource types; and deleting a stored assignment succeeds,
after which fetching that id signals NotFound and no record with that id
appears in any List result. The store is assumed well-formed as every
store reachable through the handlers is: keys are pairwise distinct and
each record is stored under its own id. -/
theorem C9_notfound_iff_absent (s : Store AssignmentRead) (aid aid2 : Nat)
    (u : AssignmentUpdate) (p : AssignmentCreate) (now : PyDateTime)
    (e : AssignmentRead) (cs : Store CourseRead) (cid2 : Nat)
    (cu : CourseUpdate) (cp : CourseCreate)
    (hnd : storeKeysNodup s)
    (hkm : ∀ kv ∈ s, (kv : Nat × AssignmentRead).2.id = kv.1)
    (he : storeGet s aid = some e) :
    isNotFoundB (get_assignment s aid2) = (storeGet s aid2).isNone ∧
    isNotFoundB (update_assignment s aid2 u).1 = (storeGet s aid2).isNone ∧
    isNotFoundB (replace_assignment s aid2 p now).1
      = (storeGet s aid2).isNone ∧
    isNotFoundB (delete_assignment s aid2).1 = (storeGet s aid2).isNone ∧
    isNotFoundB (get_course cs cid2) = (storeGet cs cid2).isNone ∧
    isNotFoundB (update_course cs cid2 cu).1 = (storeGet cs cid2).isNone ∧
    isNotFoundB (replace_course cs cid2 cp).1 = (storeGet cs cid2).isNone ∧
    isNotFoundB (delete_course cs cid2).1 = (storeGet cs cid2).isNone ∧
    delete_assignment s aid = (Except.ok (), storeErase s aid) ∧
    get_assignment (storeErase s aid) aid =
      Except.error (ApiError.notFound "Assignment not found") ∧
    (∀ f : AssignmentFilter,
      (list_assignments f (storeErase s aid)).all
        (fun a => !(a.id == aid)) = true) := by
  have herase := storeGet_storeErase_self s aid hnd
  refine ⟨?_, ?_, ?_, ?_, ?_, ?_, ?_, ?_, ?_, ?_, ?_⟩
  · cases hg : storeGet s aid2 <;> simp [get_assignment, hg, isNotFoundB]
  · cases hg : storeGet s aid2 with
    | none => simp [update_assignment, hg, isNotFoundB]
    | some old =>
      cases hm : mergeAssignment old u with
      | error e2 =>
        have := mergeAssignment_error old u e2 hm
        subst this
        simp [update_assignment, hg, hm, isNotFoundB]
      | ok r2 => simp [update_assignment, hg, hm, isNotFoundB]
  · cases hg : storeGet s aid2 <;>
      simp [replace_assignment, hg, isNotFoundB]
  · cases hg : storeGet s aid2 <;>
      simp [delete_assignment, hg, isNotFoundB]
  · cases hg : storeGet cs cid2 <;> simp [get_course, hg, isNotFoundB]
  · cases hg : storeGet cs cid2 with
    | none => simp [update_course, hg, isNotFoundB]
    | some old =>
      cases hm : mergeCourse old cu with
      | error e2 =>
        have := mergeCourse_error old cu e2 hm
        subst this
        simp [update_course, hg, hm, isNotFoundB]
      | ok r2 => simp [update_course, hg, hm, isNotFoundB]
  · cases hg : storeGet cs cid2 <;>
      simp [replace_course, hg, mkCourseRead, isNotFoundB]
  · cases hg : storeGet cs cid2 <;> simp [delete_course, hg, isNotFoundB]
  · simp [delete_assignment, he]
  · simp [get_assignment, herase]
  · intro f
    rw [List.all_eq_true]
    intro a ha
    have ha2 : a ∈ storeValues (storeErase s aid) := by
      unfold list_assignments at ha
      rw [filterAssignments_eq_filter] at ha
      exact List.mem_of_mem_filter ha
    unfold storeValues at ha2
    obtain ⟨kv, hkv, hva⟩ := List.mem_map.mp ha2
    obtain ⟨hmem, hne⟩ := mem_storeErase s aid kv hnd hkv
    have hid : kv.2.id = kv.1 := hkm kv hmem
    subst hva
    simp [hid, hne]

/-- C9 witness: the statement applied to a concrete two-record assignment
store (deleting id 1) and singleton course store, probing the absent ids
3 and 9. -/
theorem C9_witness :
    isNotFoundB (get_assignment [(1, exAssignment), (5, exA5)] 3)
      = (storeGet [(1, exAssignment), (5, exA5)] 3).isNone ∧
    delete_assignment [(1, exAssignment), (5, exA5)] 1 =
      (Except.ok (), storeErase [(1, exAssignment), (5, exA5)] 1) ∧
    get_assignment (storeErase [(1, exAssignment), (5, exA5)] 1) 1 =
      Except.error (ApiError.notFound "Assignment not found") := by
  have h := C9_notfound_iff_absent [(1, exAssignment), (5, exA5)] 1 3
    {} exACreate { day := 19900, tod := 0 } exAssignment
    [(2, exCourse)] 9 {} exCCreate
    (by decide) (by decide) rfl
  exact ⟨h.1, h.2.2.2.2.2.2.2.2.1, h.2.2.2.2.2.2.2.2.2.1⟩
